import Mathlib

/-!
Shallow embedding of the pycheck core checker (`src/pycheck/checker.py`).

The embedding models the module-probing engine over explicit environments:
the behavior of the runtime's module-loading machinery is a function from
module names to outcomes, the standard-library enumeration and the installed
distribution metadata are explicit inputs, and Python exceptions that cross a
function boundary are modelled with `Except`.

Python string values are Lean `String`s.  The Python string primitives used
by the checker (`strip`, `splitlines`, `split`, `replace`, `lower`,
`startswith`, `endswith`, slicing) are re-implemented below over the
character list `String.data`, because the corresponding Lean library
functions are iterator-based and do not reduce in the kernel.  Python's
`sorted` on strings is code-point lexicographic, which coincides with the
order of Lean's `LinearOrder String` instance; `sorted(set(xs))` is embedded
as `List.insertionSort (· ≤ ·) xs.dedup`.
-/

namespace PyCheck

/-- A Python exception escaping a function: either the `ValueError` that
`doSanityCheck` raises for an unknown mode, or an exception of some other
type (identified by its type name) propagating out of the runtime machinery. -/
inductive PyExc where
  | valueError (msg : String)
  | uncaught (ename : String)
  deriving DecidableEq

/-- Decidable equality for `Except`, used to evaluate the embedding on
concrete environments. -/
instance {ε α : Type} [DecidableEq ε] [DecidableEq α] : DecidableEq (Except ε α) := fun x y =>
  match x, y with
  | .ok a, .ok b => decidable_of_iff (a = b) (by simp)
  | .error e, .error f => decidable_of_iff (e = f) (by simp)
  | .ok _, .error _ => isFalse fun h => Except.noConfusion h
  | .error _, .ok _ => isFalse fun h => Except.noConfusion h

/-! ### Python string primitives (re-implemented over `String.data`) -/

/-- Whitespace test used by Python `str.strip`. -/
def isWs (c : Char) : Bool := c.isWhitespace

/-- Python `s.strip()`: remove leading and trailing whitespace. -/
def pyStrip (s : String) : String :=
  String.mk (((s.data.dropWhile isWs).reverse.dropWhile isWs).reverse)

/-- Worker for `pySplitlines`: split at line breaks (`\n`, `\r`, `\r\n`),
with no empty trailing line after a final break, like Python `splitlines`. -/
def splitlinesGo : List Char → List Char → List String
  | [], acc => match acc with
    | [] => []
    | _ => [String.mk acc.reverse]
  | '\r' :: '\n' :: cs, acc => String.mk acc.reverse :: splitlinesGo cs []
  | '\r' :: cs, acc => String.mk acc.reverse :: splitlinesGo cs []
  | '\n' :: cs, acc => String.mk acc.reverse :: splitlinesGo cs []
  | c :: cs, acc => splitlinesGo cs (c :: acc)

/-- Python `s.splitlines()`. -/
def pySplitlines (s : String) : List String := splitlinesGo s.data []

/-- Worker for `pySplitChar`: Python `str.split(sep)` with a one-character
separator always yields at least one (possibly empty) field. -/
def splitCharGo (sep : Char) : List Char → List (List Char)
  | [] => [[]]
  | c :: cs =>
    if c = sep then [] :: splitCharGo sep cs
    else
      match splitCharGo sep cs with
      | [] => [[c]]
      | p :: ps => (c :: p) :: ps

/-- Python `s.split(sep)` for a one-character separator. -/
def pySplitChar (sep : Char) (s : String) : List String :=
  (splitCharGo sep s.data).map String.mk

/-- Python `s.replace(a, b)` for one-character arguments. -/
def pyReplaceChar (a b : Char) (s : String) : String :=
  String.mk (s.data.map fun c => if c = a then b else c)

/-- Python `s.lower()` (the names involved are ASCII). -/
def pyLower (s : String) : String := String.mk (s.data.map Char.toLower)

/-- Python `s.startswith(p)`. -/
def pyStartsWith (s p : String) : Bool := p.data.isPrefixOf s.data

/-- Python `s.endswith(p)`. -/
def pyEndsWith (s p : String) : Bool := p.data.isSuffixOf s.data

/-- Python `s[:-n]` for `0 < n ≤ len(s)`: drop the last `n` characters. -/
def pyDropRight (s : String) (n : Nat) : String :=
  String.mk (s.data.take (s.data.length - n))

/-- Python `sorted(set(xs))` for strings: the set's elements in code-point
lexicographic order. -/
def sortedSet (xs : List String) : List String :=
  List.insertionSort (· ≤ ·) xs.dedup

/-! ### The Safe Loader: `_try_import` -/

/-- Outcome of one attempt of `importlib.import_module(name)` in the ambient
runtime: success, one of the three exception types anticipated by
`_try_import`, or an exception of any other type (carrying its type name). -/
inductive ImportOutcome where
  | ok
  | importError
  | moduleNotFound
  | attributeError
  | other (ename : String)
  deriving DecidableEq

/-- True when the load attempt raises an exception type that `_try_import`
does not anticipate. -/
def ImportOutcome.raisesOther : ImportOutcome → Bool
  | .other _ => true
  | _ => false

/-- Embedding of `_try_import` (checker.py lines 24-33).  The guard rejects
empty, dot-led and dash-led names without attempting a load; otherwise the
load is attempted and only `ImportError`, `AttributeError` and
`ModuleNotFoundError` are caught; an exception of any other type escapes. -/
def tryImport (imp : String → ImportOutcome) (name : String) : Except PyExc Bool :=
  if name = "" ∨ pyStartsWith name "." ∨ pyStartsWith name "-" then .ok false
  else
    match imp name with
    | .ok => .ok true
    | .importError => .ok false
    | .moduleNotFound => .ok false
    | .attributeError => .ok false
    | .other e => .error (.uncaught e)

/-- The boolean verdict of `_try_import` on the attempts that do complete
(its value whenever no unanticipated exception escapes). -/
def tryOk (imp : String → ImportOutcome) (name : String) : Bool :=
  match tryImport imp name with
  | .ok b => b
  | .error _ => false

/-! ### Name Discovery: `_get_stdlib_modules` -/

/-- The static `_SKIP` denylist of checker.py lines 56-70, transcribed
verbatim. -/
def SKIP : List String :=
  ["tkinter", "turtle", "idlelib", "turtledemo",
   "test", "lib2to3", "ensurepip", "venv", "distutils",
   "curses", "fcntl", "grp", "posix", "pty", "pwd",
   "readline", "resource", "syslog", "termios", "tty", "spwd", "crypt",
   "msvcrt", "winreg", "winsound", "nt", "msilib",
   "antigravity", "this",
   "dbm", "ossaudiodev", "nis", "posixpath", "ntpath"]

/-- The filter of checker.py lines 74-80: keep a name unless it starts with
the private marker or belongs to `SKIP`. -/
def keepName (n : String) : Bool :=
  !(pyStartsWith n "_") && !(decide (n ∈ SKIP))

/-- Embedding of `_get_stdlib_modules` (checker.py lines 36-81).
`api` is `sys.stdlib_module_names` when the attribute exists (`none`
otherwise); `scan` is the outcome of the fallback block that scans the
standard-library directory with `pkgutil.iter_modules` — that block carries
no exception handler, so a failing scan is an `Except.error`. -/
def getStdlibModules (api : Option (List String))
    (scan : Except PyExc (List String)) : Except PyExc (List String) :=
  match api with
  | some ns => .ok ((sortedSet ns).filter keepName)
  | none =>
    match scan with
    | .ok ns => .ok ((sortedSet ns).filter keepName)
    | .error e => .error e

/-! ### Name Discovery: `_get_all_installed_packages` -/

/-- One installed distribution, as seen through the three metadata accesses
the checker performs.  `readTopLevel` is `dist.read_text("top_level.txt")`
(`none` when the file is absent); `files` is `dist.files` (`none` for a
missing file list); `nameMeta` is `dist.metadata.get("Name", "")`.  Each
access can raise in a corrupted environment. -/
structure Dist where
  readTopLevel : Except PyExc (Option String)
  files : Except PyExc (Option (List String))
  nameMeta : Except PyExc String

/-- The names taken from a truthy `top_level.txt` payload (checker.py lines
96-99): non-empty, non-private stripped lines. -/
def topLevelNames (t : String) : List String :=
  ((pySplitlines (pyStrip t)).map pyStrip).filter
    fun n => decide (n ≠ "") && !(pyStartsWith n "_")

/-- The candidate derived from one entry of `dist.files` (checker.py lines
106-115): first path segment after backslash normalization, with a trailing
`.py` stripped; `none` when empty or private. -/
def fileToName (f : String) : Option String :=
  let parts := pySplitChar '/' (pyReplaceChar '\\' '/' f)
  let first := parts.headD ""
  let name := if pyEndsWith first ".py" then pyDropRight first 3 else first
  if name ≠ "" ∧ ¬pyStartsWith name "_" then some name else none

/-- The normalized distribution name of checker.py line 120. -/
def normalizeDistName (s : String) : String :=
  pyLower (pyReplaceChar '-' '_' s)

/-- The file-derived and name-derived candidates of one distribution
(checker.py lines 104-121), reached when the `top_level.txt` branch did not
`continue`.  The `dist.files` and `dist.metadata` accesses are not inside
any `try`, so their exceptions propagate. -/
def distFallbackNames (d : Dist) : Except PyExc (List String) :=
  match d.files with
  | .error e => .error e
  | .ok fs =>
    let fromFiles :=
      match fs with
      | none => []
      | some l => l.filterMap fileToName
    match d.nameMeta with
    | .error e => .error e
    | .ok distName =>
      if distName ≠ "" then .ok (fromFiles ++ [normalizeDistName distName])
      else .ok fromFiles

/-- The candidates contributed by one distribution (checker.py lines 92-121).
Only the `top_level.txt` read sits inside `try/except`; a truthy payload ends
the distribution's processing (`continue`), so the normalized distribution
name is not added in that case. -/
def distNames (d : Dist) : Except PyExc (List String) :=
  match d.readTopLevel with
  | .ok (some t) =>
    if t ≠ "" then .ok (topLevelNames t) else distFallbackNames d
  | .ok none => distFallbackNames d
  | .error _ => distFallbackNames d

/-- The loop of `_get_all_installed_packages` over `distributions()`: an
exception from any distribution's unwrapped metadata access aborts the whole
traversal. -/
def collectNames : List Dist → Except PyExc (List String)
  | [] => .ok []
  | d :: ds =>
    match distNames d with
    | .error e => .error e
    | .ok ns =>
      match collectNames ds with
      | .error e => .error e
      | .ok rest => .ok (ns ++ rest)

/-- Embedding of `_get_all_installed_packages` (checker.py lines 84-123):
`sorted(seen)` over the accumulated candidate set. -/
def getAllInstalledPackages (dists : List Dist) : Except PyExc (List String) :=
  match collectNames dists with
  | .ok ns => .ok (sortedSet ns)
  | .error e => .error e

/-! ### The Aggregator: `doSanityCheck` -/

/-- The `OS` mode constant. -/
def OS : String := "OS"

/-- The `ALL` mode constant. -/
def ALL : String := "ALL"

/-- The reserved `SPECIFIC` mode constant (no dispatch branch exists for it). -/
def SPECIFIC : String := "SPECIFIC"

/-- The value `doSanityCheck` returns: `True`/`False` for `OS` mode (and the
`False` sentinel for `ALL`), or the numeric string of `ALL` mode. -/
inductive CheckResult where
  | bool (b : Bool)
  | str (s : String)
  deriving DecidableEq

/-- The message of the `ValueError` raised for an unknown mode (checker.py
line 154); `{mode!r}` is the Python `repr` of the mode string. -/
def unknownModeMsg (mode : String) : String :=
  "Unknown mode: '" ++ mode ++ "'. Use pycheck.OS or pycheck.ALL."

/-- The `OS`-mode loop of checker.py lines 139-142, instrumented with the
list of names actually passed to `_try_import`: stop at the first load that
returns `False`, and let an escaping exception propagate. -/
def osSweep (imp : String → ImportOutcome) :
    List String → Except PyExc Bool × List String
  | [] => (.ok true, [])
  | m :: ms =>
    match tryImport imp m with
    | .error e => (.error e, [m])
    | .ok false => (.ok false, [m])
    | .ok true =>
      let (r, t) := osSweep imp ms
      (r, m :: t)

/-- The `ALL`-mode loop of checker.py lines 147-149, instrumented with the
list of names actually passed to `_try_import`: count successes over every
candidate, and let an escaping exception propagate. -/
def allSweep (imp : String → ImportOutcome) :
    List String → Except PyExc Nat × List String
  | [] => (.ok 0, [])
  | m :: ms =>
    match tryImport imp m with
    | .error e => (.error e, [m])
    | .ok b =>
      match allSweep imp ms with
      | (.ok k, t) => (.ok ((if b then 1 else 0) + k), m :: t)
      | (.error e, t) => (.error e, m :: t)

/-- The runtime environment `doSanityCheck` executes against: the import
machinery, the standard-library enumeration inputs, and the installed
distributions. -/
structure Env where
  imp : String → ImportOutcome
  api : Option (List String)
  scan : Except PyExc (List String)
  dists : List Dist

/-- Embedding of `doSanityCheck` (checker.py lines 126-154), paired with the
instrumented list of names passed to `_try_import`.  `OS` mode folds the
stdlib candidates fail-fast into a boolean; `ALL` mode counts successes over
all candidates, collapsing a zero count to the `False` sentinel; any other
mode raises a `ValueError` naming the mode. -/
def doSanityCheck (env : Env) (mode : String) :
    Except PyExc CheckResult × List String :=
  if mode = OS then
    match getStdlibModules env.api env.scan with
    | .error e => (.error e, [])
    | .ok mods =>
      match osSweep env.imp mods with
      | (.ok b, t) => (.ok (.bool b), t)
      | (.error e, t) => (.error e, t)
  else if mode = ALL then
    match getAllInstalledPackages env.dists with
    | .error e => (.error e, [])
    | .ok pkgs =>
      match allSweep env.imp pkgs with
      | (.ok k, t) =>
        if k = 0 then (.ok (.bool false), t) else (.ok (.str (toString k)), t)
      | (.error e, t) => (.error e, t)
  else
    (.error (.valueError (unknownModeMsg mode)), [])

/-! ### The filesystem capability probe: `check_filesystem_access` -/

/-- A storage-layer exception from the temporary-directory machinery:
`PermissionError`, or any other `OSError`; the payload is Python's `str(e)`. -/
inductive FsErr where
  | permission (msg : String)
  | osError (msg : String)
  deriving DecidableEq

/-- The storage behaviors the probe encounters: acquiring the temporary
directory (`tempfile.TemporaryDirectory().__enter__`), writing the probe
file, and reading it back. -/
structure FsEnv where
  acquire : Except FsErr Unit
  write : Except FsErr Unit
  readBack : Except FsErr String
  deriving DecidableEq

/-- The `{capability, status, detail}` dictionary the probes return. -/
structure CapabilityResult where
  capability : String
  status : String
  detail : String
  deriving DecidableEq

/-- The probe's observable outcome: its returned dictionary, whether the
temporary directory was acquired, and whether it was released (the `with`
statement runs the cleanup whenever the acquisition succeeded). -/
structure FsProbeOutcome where
  result : CapabilityResult
  acquired : Bool
  released : Bool
  deriving DecidableEq

/-- The fixed payload written by the probe (checker.py line 171). -/
def fsPayload : String := "pycheck"

/-- The message of the internally raised integrity `ValueError` (checker.py
line 179). -/
def mismatchMsg : String := "Read data did not match written data."

/-- The result on the `except PermissionError` path (checker.py lines
181-183). -/
def fsFail : CapabilityResult :=
  ⟨"filesystem_access", "fail", "Permission denied: Cannot write to system temp directory."⟩

/-- The result on the `except (OSError, ValueError)` path (checker.py lines
185-189): the detail embeds `str(e)`. -/
def fsWarn (msg : String) : CapabilityResult :=
  ⟨"filesystem_access", "warn", "Filesystem issue: " ++ msg⟩

/-- The initial (and success) result of checker.py lines 159-163. -/
def fsOk : CapabilityResult :=
  ⟨"filesystem_access", "ok", "Temporary directory write/read succeeded."⟩

/-- How the two `except` clauses classify a storage-layer exception:
`PermissionError` first, then the `OSError` umbrella. -/
def classifyFsErr : FsErr → CapabilityResult
  | .permission _ => fsFail
  | .osError m => fsWarn m

/-- Embedding of `check_filesystem_access` (checker.py lines 157-191): a
strict acquire → write → read → compare pipeline inside one `try`, with the
read-back compared against the fixed payload and a mismatch surfacing as the
integrity `ValueError` caught by the `warn` clause. -/
def checkFilesystemAccess (env : FsEnv) : FsProbeOutcome :=
  match env.acquire with
  | .error e => ⟨classifyFsErr e, false, false⟩
  | .ok _ =>
    match env.write with
    | .error e => ⟨classifyFsErr e, true, true⟩
    | .ok _ =>
      match env.readBack with
      | .error e => ⟨classifyFsErr e, true, true⟩
      | .ok data =>
        if data ≠ fsPayload then ⟨fsWarn mismatchMsg, true, true⟩
        else ⟨fsOk, true, true⟩

/-! ### Concrete environments used to evaluate the embedding -/

/-- An import machinery in which loading the module named `evil` raises a
`RuntimeError` — an exception type `_try_import` does not anticipate — and
every other load succeeds. -/
def impEvil : String → ImportOutcome :=
  fun n => if n = "evil" then .other "RuntimeError" else .ok

/-- A benign environment: every load succeeds, the preferred enumeration
reports the single stdlib module `os`, and one installed distribution
declares the manifest name `pkg`. -/
def envBenign : Env :=
  ⟨fun _ => .ok, some ["os"], .ok [], [⟨.ok (some "pkg"), .ok none, .ok ""⟩]⟩

/-- A hostile environment whose single stdlib candidate `os` raises an
unanticipated exception type when imported. -/
def envHostile : Env :=
  ⟨fun _ => .other "RuntimeError", some ["os"], .ok [], []⟩

/-- An environment whose stdlib enumeration reports only a skip-set entry,
so discovery filters the candidate sequence down to nothing. -/
def envEmptyOS : Env :=
  ⟨fun _ => .ok, some ["tkinter"], .ok [], []⟩

/-- A distribution with a truthy `top_level.txt` manifest (`foo`) and the
distribution name `Bar-Baz`. -/
def dManifest : Dist := ⟨.ok (some "foo"), .ok none, .ok "Bar-Baz"⟩

/-- A distribution with no manifest, no file list and distribution name
`My-Pkg`. -/
def dNoManifest : Dist := ⟨.ok none, .ok none, .ok "My-Pkg"⟩

/-- A healthy distribution declaring the manifest name `alpha`. -/
def dAlpha : Dist := ⟨.ok (some "alpha"), .ok none, .ok ""⟩

/-- A healthy distribution declaring the manifest name `zeta`. -/
def dZeta : Dist := ⟨.ok (some "zeta"), .ok none, .ok ""⟩

/-- A corrupted distribution whose `dist.files` access raises a
`RuntimeError` (cf. the `BrokenDist` objects built by the repository's
hostile-environment harnesses). -/
def dBrokenFiles : Dist := ⟨.ok none, .error (.uncaught "RuntimeError"), .ok "broken"⟩

/-- A storage environment in which the round-trip succeeds but the read-back
value differs from the written payload. -/
def fsEnvMismatch : FsEnv := ⟨.ok (), .ok (), .ok "CORRUPTED"⟩

/-- A storage environment in which acquiring the temporary directory is
denied. -/
def fsEnvDenied : FsEnv := ⟨.error (.permission "Access is denied"), .ok (), .ok "pycheck"⟩

/-! ### Helper lemmas -/

/-- On a load whose failure mode is one of the three anticipated exception
types, `_try_import` completes and returns its boolean verdict. -/
theorem tryImport_eq_ok (imp : String → ImportOutcome) (name : String)
    (h : (imp name).raisesOther = false) :
    tryImport imp name = .ok (tryOk imp name) := by
  unfold tryOk tryImport
  split
  · rfl
  · cases him : imp name <;> simp [ImportOutcome.raisesOther, him] at h ⊢

/-- The instrumented `OS` loop on anticipated-only load outcomes: the result
is the conjunction of all verdicts, and the loader is invoked exactly on the
passing prefix plus the first failing candidate, if any. -/
theorem osSweep_spec (imp : String → ImportOutcome) (ms : List String)
    (h : ∀ m ∈ ms, (imp m).raisesOther = false) :
    osSweep imp ms =
      (.ok (ms.all (tryOk imp)),
       ms.takeWhile (tryOk imp) ++ (ms.dropWhile (tryOk imp)).take 1) := by
  induction ms with
  | nil => rfl
  | cons m ms ih =>
    have hm : (imp m).raisesOther = false := h m (List.mem_cons_self m ms)
    have hms : ∀ x ∈ ms, (imp x).raisesOther = false :=
      fun x hx => h x (List.mem_cons_of_mem m hx)
    have ht := tryImport_eq_ok imp m hm
    cases hb : tryOk imp m
    · rw [hb] at ht
      simp [osSweep, ht, hb]
    · rw [hb] at ht
      simp [osSweep, ht, hb, ih hms]

/-- The instrumented `ALL` loop on anticipated-only load outcomes: the result
counts the passing candidates and the loader is invoked on every candidate. -/
theorem allSweep_spec (imp : String → ImportOutcome) (ms : List String)
    (h : ∀ m ∈ ms, (imp m).raisesOther = false) :
    allSweep imp ms = (.ok ((ms.filter (tryOk imp)).length), ms) := by
  induction ms with
  | nil => rfl
  | cons m ms ih =>
    have hm : (imp m).raisesOther = false := h m (List.mem_cons_self m ms)
    have hms : ∀ x ∈ ms, (imp x).raisesOther = false :=
      fun x hx => h x (List.mem_cons_of_mem m hx)
    have ht := tryImport_eq_ok imp m hm
    cases hb : tryOk imp m <;> rw [hb] at ht <;>
      simp [allSweep, ht, hb, ih hms, List.filter_cons, Nat.add_comm]

/-- The post-filter candidate list produced from any enumerated name set is
sorted, duplicate-free, and survives `keepName`. -/
theorem filteredCandidates_spec (ns : List String) :
    ((sortedSet ns).filter keepName).Sorted (· ≤ ·)
    ∧ ((sortedSet ns).filter keepName).Nodup
    ∧ ∀ n ∈ (sortedSet ns).filter keepName, keepName n = true := by
  refine ⟨?_, ?_, ?_⟩
  · exact List.Pairwise.filter keepName (List.sorted_insertionSort _ ns.dedup)
  · exact List.Nodup.filter keepName
      ((List.perm_insertionSort _ ns.dedup).symm.nodup (List.nodup_dedup ns))
  · intro n hn
    exact (List.mem_filter.mp hn).2

/-! ### Claim theorems -/

/-- C1: the claim states that `_try_import(name)` returns a boolean and never
propagates any exception, for every behavior of the underlying import
mechanism.  The code contradicts this: it catches only `ImportError`,
`AttributeError` and `ModuleNotFoundError`, so an import attempt that raises
any other exception type (here a `RuntimeError` thrown while importing
`evil`) escapes `_try_import` instead of yielding `False`. -/
theorem C1_try_import_propagates_unanticipated :
    tryImport impEvil "evil" = Except.error (PyExc.uncaught "RuntimeError")
    ∧ ∀ e, tryImport impEvil "ssl" ≠ Except.error e := by
  constructor
  · rfl
  · intro e h
    exact Except.noConfusion h

/-- C5: the claim states that every per-distribution metadata access is
isolated, so one corrupted distribution is skipped and names from valid
distributions before and after it are still discovered.  The code wraps only
the `top_level.txt` read: here the middle distribution's `dist.files` access
raises and the whole discovery aborts with that exception, losing `alpha`
and `zeta`, which the healthy distributions do contribute on their own. -/
theorem C5_discovery_aborts_on_corrupted_distribution :
    getAllInstalledPackages [dAlpha, dBrokenFiles, dZeta]
        = Except.error (PyExc.uncaught "RuntimeError")
    ∧ distNames dAlpha = .ok ["alpha"]
    ∧ distNames dZeta = .ok ["zeta"] := by
  refine ⟨by decide, by decide, by decide⟩

/-- C8 counterexample: the claim states the distribution's normalized name is
always added, including when a top-level manifest is declared.  For a
distribution with manifest line `foo` and name `Bar-Baz`, discovery returns
only `foo`: the normalized name `bar_baz` is absent, because the manifest
branch ends the distribution's processing with `continue`. -/
theorem C8_normalized_name_skipped_with_manifest :
    getAllInstalledPackages [dManifest] = .ok ["foo"]
    ∧ normalizeDistName "Bar-Baz" = "bar_baz"
    ∧ "bar_baz" ∉ (["foo"] : List String) := by
  refine ⟨by decide, by decide, by decide⟩

/-- C8 (amended): a distribution with a truthy top-level manifest contributes
exactly the manifest-derived names — its normalized name is not added; the
normalized name is added (alongside any file-derived names) exactly when the
manifest read raises, the manifest is absent, or it is empty, provided the
unwrapped metadata accesses succeed and the name is non-empty. -/
theorem C8_normalized_name_only_without_manifest (d : Dist) :
    (∀ t, d.readTopLevel = .ok (some t) → t ≠ "" →
      distNames d = .ok (topLevelNames t))
    ∧ ((d.readTopLevel = .ok none ∨ d.readTopLevel = .ok (some "")
          ∨ ∃ e, d.readTopLevel = .error e) →
        ∀ fs nm, d.files = .ok fs → d.nameMeta = .ok nm → nm ≠ "" →
          ∃ l, distNames d = .ok l ∧ normalizeDistName nm ∈ l) := by
  obtain ⟨rtl, fl, meta⟩ := d
  constructor
  · intro t ht hne
    simp only at ht
    rw [ht] at *
    simp [distNames, hne]
  · intro hcase fs nm hfs hnm hne
    simp only at hfs hnm
    have hfall : distNames ⟨rtl, fl, meta⟩ = distFallbackNames ⟨rtl, fl, meta⟩ := by
      rcases hcase with h | h | ⟨e, h⟩ <;> simp only at h <;> rw [h] <;> simp [distNames]
    rw [hfall, hfs, hnm] at *
    cases fs with
    | none =>
      refine ⟨[normalizeDistName nm], ?_, by simp⟩
      simp [distFallbackNames, hne]
    | some l =>
      refine ⟨l.filterMap fileToName ++ [normalizeDistName nm], ?_, by simp⟩
      simp [distFallbackNames, hne]

/-- C9 counterexample: the claim states that when the preferred enumeration
API is unavailable and the fallback scan fails, discovery returns an empty
sequence rather than propagating; but the fallback block has no exception
handler, so a failing scan propagates its exception. -/
theorem C9_fallback_failure_propagates :
    getStdlibModules none (Except.error (PyExc.uncaught "OSError"))
      = Except.error (PyExc.uncaught "OSError") := rfl

/-- C9 (amended): OS-scope discovery raises exactly when the preferred
enumeration API is unavailable and the fallback scan itself raises, and it
then propagates the scan's exception; with the API present the fallback is
never consulted, and a successful fallback scan is used silently. -/
theorem C9_discovery_raises_iff_fallback_fails (api : Option (List String))
    (scan : Except PyExc (List String)) (e : PyExc) :
    getStdlibModules api scan = Except.error e ↔ api = none ∧ scan = Except.error e := by
  cases api with
  | some ns => simp [getStdlibModules]
  | none =>
    cases scan with
    | ok ns => simp [getStdlibModules]
    | error f => simp [getStdlibModules]

/-- C9 witness: the amended characterization applied at a concrete failing
fallback scan. -/
theorem C9_discovery_raises_iff_fallback_fails_witness :
    getStdlibModules none (Except.error (PyExc.uncaught "AttributeError"))
      = Except.error (PyExc.uncaught "AttributeError") :=
  (C9_discovery_raises_iff_fallback_fails none
    (Except.error (PyExc.uncaught "AttributeError")) (PyExc.uncaught "AttributeError")).mpr
    ⟨rfl, rfl⟩

/-- C10: when OS-scope discovery yields an empty candidate sequence,
`doSanityCheck(OS)` reports the all-pass verdict `True` and invokes the
loader on nothing. -/
theorem C10_empty_candidates_report_healthy (env : Env)
    (hd : getStdlibModules env.api env.scan = .ok []) :
    doSanityCheck env OS = (.ok (.bool true), []) := by
  unfold doSanityCheck
  rw [if_pos rfl, hd]
  rfl

/-- C10 witness: an enumeration reporting only the skip-set entry `tkinter`
is filtered down to an empty candidate sequence, and the check passes. -/
theorem C10_empty_candidates_report_healthy_witness :
    doSanityCheck envEmptyOS OS = (.ok (.bool true), []) :=
  C10_empty_candidates_report_healthy envEmptyOS (by decide)

/-- C2: over any discovered OS-scope candidate sequence (with load attempts
completing in the anticipated failure modes), `doSanityCheck(OS)` returns
`True` iff every candidate loads; the loader is invoked, in discovery order,
exactly on the candidates up to and including the first failing one and never
past it; and when some candidate fails the result is `False`. -/
theorem C2_os_all_pass_iff_and_short_circuit (env : Env) (mods : List String)
    (hd : getStdlibModules env.api env.scan = .ok mods)
    (h : ∀ m ∈ mods, (env.imp m).raisesOther = false) :
    ((doSanityCheck env OS).1 = .ok (.bool true)
        ↔ ∀ m ∈ mods, tryOk env.imp m = true)
    ∧ (doSanityCheck env OS).2
        = mods.takeWhile (tryOk env.imp) ++ (mods.dropWhile (tryOk env.imp)).take 1
    ∧ ((∃ m ∈ mods, tryOk env.imp m = false) →
        (doSanityCheck env OS).1 = .ok (.bool false)) := by
  have hdo : doSanityCheck env OS =
      (.ok (.bool (mods.all (tryOk env.imp))),
       mods.takeWhile (tryOk env.imp) ++ (mods.dropWhile (tryOk env.imp)).take 1) := by
    unfold doSanityCheck
    rw [if_pos rfl, hd]
    dsimp only
    rw [osSweep_spec env.imp mods h]
  rw [hdo]
  refine ⟨?_, rfl, ?_⟩
  · simp [List.all_eq_true]
  · rintro ⟨m, hm, hfm⟩
    have hall : mods.all (tryOk env.imp) = false := by
      rw [List.all_eq_false]
      exact ⟨m, hm, by simp [hfm]⟩
    simp [hall]

/-- C2 witness: the characterization applied to the benign single-candidate
environment, where the one candidate `os` loads and the sweep passes. -/
theorem C2_os_all_pass_iff_and_short_circuit_witness :
    ((doSanityCheck envBenign OS).1 = .ok (.bool true)
        ↔ ∀ m ∈ ["os"], tryOk envBenign.imp m = true)
    ∧ (doSanityCheck envBenign OS).2
        = List.takeWhile (tryOk envBenign.imp) ["os"]
            ++ (List.dropWhile (tryOk envBenign.imp) ["os"]).take 1
    ∧ ((∃ m ∈ ["os"], tryOk envBenign.imp m = false) →
        (doSanityCheck envBenign OS).1 = .ok (.bool false)) :=
  C2_os_all_pass_iff_and_short_circuit envBenign ["os"] (by decide) (by decide)

/-- C3: over any discovered ALL-scope candidate sequence (with load attempts
completing in the anticipated failure modes), `doSanityCheck(ALL)` invokes
the loader on every candidate with no short-circuit; a zero success count
yields the `False` sentinel and never the string `"0"`; a positive success
count yields the decimal string of the exact count. -/
theorem C3_all_counts_successes (env : Env) (pkgs : List String)
    (hd : getAllInstalledPackages env.dists = .ok pkgs)
    (h : ∀ m ∈ pkgs, (env.imp m).raisesOther = false) :
    (doSanityCheck env ALL).2 = pkgs
    ∧ ((pkgs.filter (tryOk env.imp)).length = 0 →
        (doSanityCheck env ALL).1 = .ok (.bool false)
        ∧ (doSanityCheck env ALL).1 ≠ .ok (.str "0"))
    ∧ ((pkgs.filter (tryOk env.imp)).length ≠ 0 →
        (doSanityCheck env ALL).1
          = .ok (.str (toString (pkgs.filter (tryOk env.imp)).length))) := by
  have hdo : doSanityCheck env ALL =
      (if (pkgs.filter (tryOk env.imp)).length = 0 then (.ok (.bool false), pkgs)
       else (.ok (.str (toString (pkgs.filter (tryOk env.imp)).length)), pkgs)) := by
    unfold doSanityCheck
    rw [if_neg (by decide), if_pos rfl, hd]
    dsimp only
    rw [allSweep_spec env.imp pkgs h]
  by_cases hk : (pkgs.filter (tryOk env.imp)).length = 0
  · rw [hdo, if_pos hk]
    exact ⟨rfl, fun _ => ⟨rfl, by simp⟩, fun hne => absurd hk hne⟩
  · rw [hdo, if_neg hk]
    exact ⟨rfl, fun hz => absurd hz hk, fun _ => rfl⟩

/-- C3 witness: the characterization applied to the benign environment, whose
single discovered package `pkg` loads, giving the count string `"1"`. -/
theorem C3_all_counts_successes_witness :
    (doSanityCheck envBenign ALL).2 = ["pkg"]
    ∧ ((List.filter (tryOk envBenign.imp) ["pkg"]).length = 0 →
        (doSanityCheck envBenign ALL).1 = .ok (.bool false)
        ∧ (doSanityCheck envBenign ALL).1 ≠ .ok (.str "0"))
    ∧ ((List.filter (tryOk envBenign.imp) ["pkg"]).length ≠ 0 →
        (doSanityCheck envBenign ALL).1
          = .ok (.str (toString (List.filter (tryOk envBenign.imp) ["pkg"]).length))) :=
  C3_all_counts_successes envBenign ["pkg"] (by decide) (by decide)

/-- C4 counterexample: the claim states `doSanityCheck` never raises for the
valid scopes; but with the valid scope `OS` and a stdlib candidate whose
load raises an unanticipated exception type, the exception propagates out
of `doSanityCheck`. -/
theorem C4_valid_scope_can_raise :
    (doSanityCheck envHostile OS).1 = Except.error (PyExc.uncaught "RuntimeError") := by
  decide

/-- C4 (amended): for every scope other than the exact tokens `OS` and `ALL`
(including `SPECIFIC`), `doSanityCheck` raises a `ValueError` whose message
names the unrecognized scope; for the valid scopes it returns without
raising provided discovery succeeds and every attempted load completes in an
anticipated failure mode (an unanticipated load exception propagates, the
C1/C5 defect). -/
theorem C4_invalid_scope_raises_valid_scopes_return (env : Env) (mode : String) :
    (mode ≠ OS → mode ≠ ALL →
      (doSanityCheck env mode).1 = .error (.valueError (unknownModeMsg mode))
      ∧ ∃ pre post, unknownModeMsg mode = pre ++ mode ++ post)
    ∧ (∀ mods, getStdlibModules env.api env.scan = .ok mods →
        (∀ m ∈ mods, (env.imp m).raisesOther = false) →
        ∃ b, (doSanityCheck env OS).1 = .ok (.bool b))
    ∧ (∀ pkgs, getAllInstalledPackages env.dists = .ok pkgs →
        (∀ m ∈ pkgs, (env.imp m).raisesOther = false) →
        ∃ r, (doSanityCheck env ALL).1 = .ok r) := by
  refine ⟨fun h1 h2 => ?_, fun mods hd h => ?_, fun pkgs hd h => ?_⟩
  · unfold doSanityCheck
    rw [if_neg h1, if_neg h2]
    exact ⟨rfl, "Unknown mode: '", "'. Use pycheck.OS or pycheck.ALL.", rfl⟩
  · unfold doSanityCheck
    rw [if_pos rfl, hd]
    dsimp only
    rw [osSweep_spec env.imp mods h]
    exact ⟨_, rfl⟩
  · unfold doSanityCheck
    rw [if_neg (by decide), if_pos rfl, hd]
    dsimp only
    rw [allSweep_spec env.imp pkgs h]
    dsimp only
    by_cases hk : (pkgs.filter (tryOk env.imp)).length = 0
    · rw [if_pos hk]
      exact ⟨.bool false, rfl⟩
    · rw [if_neg hk]
      exact ⟨.str (toString (pkgs.filter (tryOk env.imp)).length), rfl⟩

/-- C4 witness: the reserved scope `SPECIFIC` raises the `ValueError` naming
it, and both valid scopes return without raising in the benign environment. -/
theorem C4_invalid_scope_raises_valid_scopes_return_witness :
    ((doSanityCheck envBenign SPECIFIC).1
        = .error (.valueError (unknownModeMsg SPECIFIC))
      ∧ ∃ pre post, unknownModeMsg SPECIFIC = pre ++ SPECIFIC ++ post)
    ∧ (∃ b, (doSanityCheck envBenign OS).1 = .ok (.bool b))
    ∧ (∃ r, (doSanityCheck envBenign ALL).1 = .ok r) :=
  ⟨(C4_invalid_scope_raises_valid_scopes_return envBenign SPECIFIC).1
      (by decide) (by decide),
   (C4_invalid_scope_raises_valid_scopes_return envBenign SPECIFIC).2.1
      ["os"] (by decide) (by decide),
   (C4_invalid_scope_raises_valid_scopes_return envBenign SPECIFIC).2.2
      ["pkg"] (by decide) (by decide)⟩

/-- C6: the filesystem probe classifies a permission denial during
acquisition or write as `fail`; any other storage-layer error during
acquire/write/read, or a value-mismatched read-back, as `warn` — with the
mismatch detail naming the integrity failure rather than the generic
permission message; a byte-exact round-trip as `ok`; and the ephemeral
directory is released whenever it was acquired. -/
theorem C6_filesystem_probe_classification (env : FsEnv) :
    (checkFilesystemAccess env).result.capability = "filesystem_access"
    ∧ ((∃ m, env.acquire = .error (.permission m))
        ∨ (env.acquire = .ok () ∧ ∃ m, env.write = .error (.permission m)) →
        (checkFilesystemAccess env).result.status = "fail")
    ∧ ((∃ m, env.acquire = .error (.osError m))
        ∨ (env.acquire = .ok () ∧ ∃ m, env.write = .error (.osError m))
        ∨ (env.acquire = .ok () ∧ env.write = .ok ()
            ∧ ∃ m, env.readBack = .error (.osError m)) →
        (checkFilesystemAccess env).result.status = "warn")
    ∧ (∀ d, env.acquire = .ok () → env.write = .ok () → env.readBack = .ok d →
        d ≠ fsPayload →
        (checkFilesystemAccess env).result.status = "warn"
        ∧ (checkFilesystemAccess env).result.detail
            = "Filesystem issue: " ++ mismatchMsg
        ∧ (checkFilesystemAccess env).result.detail ≠ fsFail.detail)
    ∧ (env.acquire = .ok () → env.write = .ok () → env.readBack = .ok fsPayload →
        (checkFilesystemAccess env).result = fsOk)
    ∧ ((checkFilesystemAccess env).acquired = true →
        (checkFilesystemAccess env).released = true) := by
  obtain ⟨acq, wr, rd⟩ := env
  refine ⟨?_, ?_, ?_, ?_, ?_, ?_⟩
  · rcases acq with e | u
    · rcases e with m | m <;> rfl
    · cases u
      rcases wr with e | u2
      · rcases e with m | m <;> rfl
      · cases u2
        rcases rd with e | d
        · rcases e with m | m <;> rfl
        · by_cases hd : d = fsPayload <;>
            simp [checkFilesystemAccess, hd, fsOk, fsWarn]
  · rintro (⟨m, rfl⟩ | ⟨rfl, m, rfl⟩) <;> rfl
  · rintro (⟨m, rfl⟩ | ⟨rfl, m, rfl⟩ | ⟨rfl, rfl, m, rfl⟩) <;> rfl
  · rintro d rfl rfl rfl hd
    have hred : checkFilesystemAccess ⟨.ok (), .ok (), .ok d⟩
        = ⟨fsWarn mismatchMsg, true, true⟩ := by
      simp [checkFilesystemAccess, hd]
    rw [hred]
    exact ⟨rfl, rfl, by decide⟩
  · rintro rfl rfl rfl
    have hred : checkFilesystemAccess ⟨.ok (), .ok (), .ok fsPayload⟩
        = ⟨fsOk, true, true⟩ := by
      simp [checkFilesystemAccess]
    rw [hred]
  · rcases acq with e | u
    · rcases e with m | m <;> simp [checkFilesystemAccess, classifyFsErr]
    · cases u
      rcases wr with e | u2
      · rcases e with m | m <;> intro _ <;> rfl
      · cases u2
        rcases rd with e | d
        · rcases e with m | m <;> intro _ <;> rfl
        · by_cases hd : d = fsPayload <;>
            simp [checkFilesystemAccess, hd, fsOk, fsWarn]

/-- C6 witness: the classification applied to a read-back mismatch (warn,
with the integrity detail) and to an acquisition permission denial (fail). -/
theorem C6_filesystem_probe_classification_witness :
    ((checkFilesystemAccess fsEnvMismatch).result.status = "warn"
      ∧ (checkFilesystemAccess fsEnvMismatch).result.detail
          = "Filesystem issue: " ++ mismatchMsg)
    ∧ (checkFilesystemAccess fsEnvDenied).result.status = "fail" :=
  ⟨⟨((C6_filesystem_probe_classification fsEnvMismatch).2.2.2.1 "CORRUPTED"
        rfl rfl rfl (by decide)).1,
    ((C6_filesystem_probe_classification fsEnvMismatch).2.2.2.1 "CORRUPTED"
        rfl rfl rfl (by decide)).2.1⟩,
   (C6_filesystem_probe_classification fsEnvDenied).2.1
      (Or.inl ⟨"Access is denied", rfl⟩)⟩

/-- C7: every OS-scope candidate sequence produced by name discovery is
sorted lexicographically ascending (case-sensitively, by code point),
duplicate-free, contains no name starting with the private marker `_`, and
contains no skip-set member — whatever the underlying enumeration reports;
the skip set is applied as a static denylist with no platform test. -/
theorem C7_os_candidates_sorted_nodup_filtered (api : Option (List String))
    (scan : Except PyExc (List String)) (l : List String)
    (hd : getStdlibModules api scan = .ok l) :
    l.Sorted (· ≤ ·) ∧ l.Nodup
    ∧ ∀ n ∈ l, pyStartsWith n "_" = false ∧ n ∉ SKIP := by
  have key : ∀ ns : List String, (sortedSet ns).filter keepName = l →
      l.Sorted (· ≤ ·) ∧ l.Nodup
      ∧ ∀ n ∈ l, pyStartsWith n "_" = false ∧ n ∉ SKIP := by
    intro ns hns
    obtain ⟨hs, hn, hm⟩ := filteredCandidates_spec ns
    rw [hns] at hs hn hm
    refine ⟨hs, hn, fun n hnl => ?_⟩
    have hk := hm n hnl
    simpa [keepName] using hk
  cases api with
  | some ns =>
    have hns : (sortedSet ns).filter keepName = l := by
      simpa [getStdlibModules] using hd
    exact key ns hns
  | none =>
    cases scan with
    | ok ns =>
      have hns : (sortedSet ns).filter keepName = l := by
        simpa [getStdlibModules] using hd
      exact key ns hns
    | error f => simp [getStdlibModules] at hd

/-- C7 witness: the invariants applied to a concrete enumeration reporting
the single public, non-skipped name `json`. -/
theorem C7_os_candidates_sorted_nodup_filtered_witness :
    List.Sorted (· ≤ ·) ["json"] ∧ List.Nodup ["json"]
    ∧ ∀ n ∈ (["json"] : List String), pyStartsWith n "_" = false ∧ n ∉ SKIP :=
  C7_os_candidates_sorted_nodup_filtered (some ["json"]) (.ok []) ["json"] (by decide)

/-- C8 witness: the amended characterization applied to a distribution with
the manifest line `foo` (manifest names only) and to a manifest-free
distribution named `My-Pkg` (normalized name `my_pkg` added). -/
theorem C8_normalized_name_only_without_manifest_witness :
    distNames dManifest = .ok (topLevelNames "foo")
    ∧ ∃ l, distNames dNoManifest = .ok l ∧ normalizeDistName "My-Pkg" ∈ l :=
  ⟨(C8_normalized_name_only_without_manifest dManifest).1 "foo" rfl (by decide),
   (C8_normalized_name_only_without_manifest dNoManifest).2 (Or.inl rfl) none
      "My-Pkg" rfl rfl (by decide)⟩
